import Mathlib

/-!
Shallow embedding of the `sms-simulation` package (src/sms/messages.py,
src/sms/sender.py, src/sms/config.py, src/sms/simulator.py) and proofs about it.

Modelling conventions:
- Python `float` values are modelled as exact rationals (`ℚ`); all claims here
  are about exact arithmetic.
- Python non-negative `int` counters are modelled as `ℕ`.
- Random draws (`random.gauss`, `random.random`, `random.randint`,
  `random.choices`) are modelled as explicit parameters: a gauss sample is an
  arbitrary rational, a uniform draw is a rational constrained to `[0,1)` by
  hypothesis, and integer draws are arbitrary naturals reduced modulo the
  range size, which matches the support of the distribution.
- Python true division raises `ZeroDivisionError` on a zero denominator; where
  a denominator can be zero we model division with `pyDiv` returning `Option`
  (`none` = the exception). Where the denominator is provably nonzero we use
  plain `ℚ` division.
- The concurrent aggregation loop of `Simulator.run` is modelled as a fold
  over the list of events the loop body observes: `some m` when
  `result_queue.get` returns a `ServicedMessage`, `none` when it times out
  with `queue.Empty`.
-/

/-- The alphabet `string.ascii_letters + string.digits + " "` used for message
bodies (`_CHARSET` in messages.py). -/
def ascii_lowercase : List Char := "abcdefghijklmnopqrstuvwxyz".toList

/-- Python `string.ascii_uppercase`. -/
def ascii_uppercase : List Char := "ABCDEFGHIJKLMNOPQRSTUVWXYZ".toList

/-- Python `string.ascii_letters = ascii_lowercase + ascii_uppercase`. -/
def ascii_letters : List Char := ascii_lowercase ++ ascii_uppercase

/-- Python `string.digits`. -/
def string_digits : List Char := "0123456789".toList

/-- `_CHARSET = string.ascii_letters + string.digits + " "` from messages.py. -/
def CHARSET : List Char := ascii_letters ++ string_digits ++ [' ']

/-- Model of `random.randint(a, b)`: uniform on the closed interval `[a, b]`.
The external draw `u` is reduced modulo the size of the range. -/
def randint (a b : ℕ) (u : ℕ) : ℕ := a + u % (b + 1 - a)

/-- Model of `random.choices(population, k=k)`: `k` independent uniform draws
from `population`; `draw i` is the external random index for position `i`. -/
def choices (population : List Char) (k : ℕ) (draw : ℕ → ℕ) : List Char :=
  (List.range k).map (fun i => population.getD (draw i % population.length) ' ')

/-- `SMSMessage` from messages.py: a phone number and a message body. -/
structure SMSMessage where
  phone_number : List Char
  message_body : List Char
deriving DecidableEq

/-- `SMSMessage.random_message` from messages.py:
`phone_number = "".join(choices(string.digits, k=10))`,
`message_body = "".join(choices(_CHARSET, k=randint(5, 100)))`. -/
def SMSMessage.random_message (phone_draw : ℕ → ℕ) (len_u : ℕ) (body_draw : ℕ → ℕ) :
    SMSMessage where
  phone_number := choices string_digits 10 phone_draw
  message_body := choices CHARSET (randint 5 100 len_u) body_draw

/-- `ServicedMessage` from messages.py: an SMS message with service time and
delivery status metadata. -/
structure ServicedMessage where
  delivered : Bool
  service_time_seconds : ℚ
  message : SMSMessage
deriving DecidableEq

/-- `SMSSender` from sender.py. The two multiprocessing queues held by the
Python object are process-level plumbing; the pure behaviour embedded here
(`_service_time`, `process_message`) depends only on these three fields. -/
structure SMSSender where
  failure_rate : ℚ
  mean_send_time_seconds : ℚ
  sdev_send_time_seconds : ℚ
deriving DecidableEq

/-- `SMSSender._service_time` from sender.py, with the `random.gauss` sample
passed explicitly:

```
upper_bound = mean + 3 * sdev
lower_bound = max(mean - 3 * sdev, 0.0)
service_time = gauss(mu=mean, sigma=sdev)
if service_time < lower_bound: service_time = lower_bound
if service_time > upper_bound: service_time = upper_bound
```
-/
def SMSSender.service_time (s : SMSSender) (gauss_sample : ℚ) : ℚ :=
  let upper_bound := s.mean_send_time_seconds + 3 * s.sdev_send_time_seconds
  let lower_bound := max (s.mean_send_time_seconds - 3 * s.sdev_send_time_seconds) 0
  let st := if gauss_sample < lower_bound then lower_bound else gauss_sample
  if st > upper_bound then upper_bound else st

/-- `SMSSender.process_message` from sender.py, with the gauss sample and the
uniform failure draw `u = random.random()` passed explicitly (the `sleep` call
has no effect on the returned value):

```
_service_time = self._service_time()
sleep(_service_time)
_delivered = True
if random.random() < self.failure_rate: _delivered = False
return ServicedMessage(delivered=_delivered, service_time_seconds=_service_time, message=message)
```
-/
def SMSSender.process_message (s : SMSSender) (gauss_sample u : ℚ) (message : SMSMessage) :
    ServicedMessage where
  delivered := if u < s.failure_rate then false else true
  service_time_seconds := s.service_time gauss_sample
  message := message

/-- `SenderConfig` from config.py (defaults 0.1, 0.1, 0.025). -/
structure SenderConfig where
  failure_rate : ℚ := 1/10
  mean_send_time : ℚ := 1/10
  sdev_send_time : ℚ := 1/40
deriving DecidableEq

/-- `SimulationConfig` from config.py (defaults: 4 senders, 1000 messages,
refresh 0.5). -/
structure SimulationConfig where
  senders : List SenderConfig := List.replicate 4 {}
  messages : ℕ := 1000
  refresh : ℚ := 1/2
deriving DecidableEq

/-- `SimulationStatistics` from simulator.py. `start` is the opaque
`datetime.now()` timestamp, modelled as a natural number. -/
structure SimulationStatistics where
  messages_sent : ℕ
  messages_failed : ℕ
  average_seconds_per_message : ℚ
  start : ℕ
  total_messages : ℕ
deriving DecidableEq

/-- The `messages_processed` property: `messages_sent + messages_failed`. -/
def SimulationStatistics.messages_processed (s : SimulationStatistics) : ℕ :=
  s.messages_sent + s.messages_failed

/-- `SimulationStatistics.new`: all counters zero, `start = datetime.now()`
(passed as `now`). -/
def SimulationStatistics.new (now : ℕ) (total_messages : ℕ) : SimulationStatistics where
  messages_sent := 0
  messages_failed := 0
  average_seconds_per_message := 0
  start := now
  total_messages := total_messages

/-- `SimulationStatistics.update` from simulator.py:

```
if serviced.delivered: self.messages_sent += 1
else: self.messages_failed += 1
self.average_seconds_per_message *= (self.messages_processed - 1) / self.messages_processed
self.average_seconds_per_message += serviced.service_time_seconds / self.messages_processed
```

`messages_processed` is read after the counter increment, so it is at least 1
and the divisions cannot raise. -/
def SimulationStatistics.update (s : SimulationStatistics) (serviced : ServicedMessage) :
    SimulationStatistics :=
  let s1 := if serviced.delivered
    then { s with messages_sent := s.messages_sent + 1 }
    else { s with messages_failed := s.messages_failed + 1 }
  { s1 with average_seconds_per_message :=
      s1.average_seconds_per_message
          * (((s1.messages_processed : ℚ) - 1) / (s1.messages_processed : ℚ))
        + serviced.service_time_seconds / (s1.messages_processed : ℚ) }

/-- Python true division: raises `ZeroDivisionError` (here `none`) when the
denominator is zero. -/
def pyDiv (a b : ℚ) : Option ℚ := if b = 0 then none else some (a / b)

/-- Python `int(q)`: truncation toward zero. -/
def pyInt (q : ℚ) : ℤ := if 0 ≤ q then ⌊q⌋ else -⌊-q⌋

/-- The numeric core of `SimulationStatistics.render` from simulator.py: the
lengths of the `delivered`, `failed` and `space` segments of the progress bar,
or `none` when a division raises `ZeroDivisionError`. In the source
(`bar_width = 28`):

```
space = " " * int(28 * ((self.total_messages - self.messages_processed) / self.total_messages))
delivered = "=" * int((self.messages_sent / self.total_messages) * bar_width)
failed = "-" * (bar_width - len(delivered) - len(space))
```

A Python string repeated a negative number of times is empty, hence the
`Int.toNat` on each length. -/
def SimulationStatistics.render (s : SimulationStatistics) : Option (ℕ × ℕ × ℕ) :=
  match pyDiv ((s.total_messages : ℚ) - (s.messages_processed : ℚ)) (s.total_messages : ℚ) with
  | none => none
  | some remaining_frac =>
    match pyDiv (s.messages_sent : ℚ) (s.total_messages : ℚ) with
    | none => none
    | some sent_frac =>
      let space := (pyInt (28 * remaining_frac)).toNat
      let delivered := (pyInt (sent_frac * 28)).toNat
      let failed := ((28 : ℤ) - (delivered : ℤ) - (space : ℤ)).toNat
      some (delivered, failed, space)

/-- Model of `multiprocessing.Queue(maxsize=n)`. Per the Python standard
library, a `maxsize` less than or equal to zero makes the queue unbounded
(infinite capacity); the queue is a bounded buffer only when `maxsize` is
positive. -/
structure MPQueue where
  maxsize : ℕ
deriving DecidableEq

/-- Whether a `multiprocessing.Queue` actually bounds its buffering: true
exactly when `maxsize` is positive. -/
def MPQueue.is_bounded (q : MPQueue) : Bool := 0 < q.maxsize

/-- The state assembled by `Simulator.from_config` in simulator.py (the
`Engine`'s processes are runtime plumbing and are not part of the model). -/
structure Simulator where
  producer_queue : MPQueue
  result_queue : MPQueue
  senders : List SMSSender
  stats : SimulationStatistics
  running : Bool
  refresh : ℚ
  producer_messages : ℕ

/-- `Simulator.from_config` from simulator.py:

```
max_q_size = 2 * len(config.senders)
producer_queue = Queue(maxsize=max_q_size)
_result_queue = Queue(maxsize=max_q_size)
...
stats = SimulationStatistics.new(total_messages=config.messages)
running = False
refresh = config.refresh
```
-/
def Simulator.from_config (now : ℕ) (config : SimulationConfig) : Simulator :=
  let max_q_size := 2 * config.senders.length
  { producer_queue := { maxsize := max_q_size }
    result_queue := { maxsize := max_q_size }
    senders := config.senders.map (fun sc =>
      { failure_rate := sc.failure_rate
        mean_send_time_seconds := sc.mean_send_time
        sdev_send_time_seconds := sc.sdev_send_time })
    stats := SimulationStatistics.new now config.messages
    running := false
    refresh := config.refresh
    producer_messages := config.messages }

/-- Folding `SimulationStatistics.update` over a list of serviced messages. -/
def foldStats (s : SimulationStatistics) (l : List ServicedMessage) : SimulationStatistics :=
  List.foldl SimulationStatistics.update s l

/-- One body of the aggregation loop in `Simulator.run`: `some m` is a
successful `result_queue.get` followed by `stats.update(m)`; `none` is the
`queue.Empty` timeout, which does nothing (`except Empty: pass`). -/
def SimulationStatistics.applyEvent (s : SimulationStatistics) (e : Option ServicedMessage) :
    SimulationStatistics :=
  match e with
  | some m => s.update m
  | none => s

/-- The aggregation loop of `Simulator.run` over the (finite prefix of) events
it observes. After each event the loop checks
`if self.stats.messages_processed == self.producer.messages: self.running = False`.
Returns the final statistics and the final `running` flag (`false` means the
loop exited; `true` means the modelled event stream ran out while the loop was
still running). -/
def runLoop (total : ℕ) (s : SimulationStatistics) :
    List (Option ServicedMessage) → SimulationStatistics × Bool
  | [] => (s, true)
  | e :: rest =>
    let s1 := s.applyEvent e
    if s1.messages_processed = total then (s1, false)
    else runLoop total s1 rest

/-- The trace of statistics states of `runLoop`: the state before the loop and
the state after each executed iteration, ending at the exit state (when the
loop exits) or at the state reached when the event stream runs out. -/
def runStates (total : ℕ) (s : SimulationStatistics) :
    List (Option ServicedMessage) → List SimulationStatistics
  | [] => [s]
  | e :: rest =>
    let s1 := s.applyEvent e
    if s1.messages_processed = total then [s, s1]
    else s :: runStates total s1 rest

/-- Number of events that actually carry a `ServicedMessage`. Because the
producer generates exactly `total` messages and every message is serviced at
most once, any real run satisfies `someCount events ≤ total`. -/
def someCount (events : List (Option ServicedMessage)) : ℕ :=
  (events.filter (fun e => e.isSome)).length

/-- A concrete SMS message used to instantiate theorems on concrete inputs. -/
def demoMessage : SMSMessage where
  phone_number := "5551234567".toList
  message_body := "Hello there".toList

/-- A delivered serviced message with a 3-second service time. -/
def demoServicedA : ServicedMessage where
  delivered := true
  service_time_seconds := 3
  message := demoMessage

/-- A failed serviced message with a 5-second service time. -/
def demoServicedB : ServicedMessage where
  delivered := false
  service_time_seconds := 5
  message := demoMessage

/-- A concrete event stream for the aggregation loop: one result, one
`queue.Empty` timeout, one more result. -/
def demoEvents : List (Option ServicedMessage) :=
  [some demoServicedA, none, some demoServicedB]

/-- A concrete sender configuration: never fails, mean 1s, sdev 0.25s. -/
def demoSender : SMSSender where
  failure_rate := 0
  mean_send_time_seconds := 1
  sdev_send_time_seconds := 1/4

/-- A sender whose mean send time is 0 and sdev is 1: accepted by
`SenderConfig.validate` (both values are non-negative). -/
def zeroMeanSender : SMSSender where
  failure_rate := 0
  mean_send_time_seconds := 0
  sdev_send_time_seconds := 1

/-- A simulation config with no senders: accepted by
`SimulationConfig.validate` (zero is below the platform sender limit). -/
def zeroSenderConfig : SimulationConfig where
  senders := []
  messages := 0
  refresh := 1/2

/-- A simulation config with one (default) sender. -/
def oneSenderConfig : SimulationConfig where
  senders := [{}]
  messages := 10
  refresh := 1/2

lemma update_processed (s : SimulationStatistics) (m : ServicedMessage) :
    (s.update m).messages_processed = s.messages_processed + 1 := by
  unfold SimulationStatistics.update SimulationStatistics.messages_processed
  by_cases hd : m.delivered <;> simp [hd] <;> omega

lemma update_sent (s : SimulationStatistics) (m : ServicedMessage) :
    (s.update m).messages_sent
      = if m.delivered then s.messages_sent + 1 else s.messages_sent := by
  unfold SimulationStatistics.update
  by_cases hd : m.delivered <;> simp [hd]

lemma update_failed (s : SimulationStatistics) (m : ServicedMessage) :
    (s.update m).messages_failed
      = if m.delivered then s.messages_failed else s.messages_failed + 1 := by
  unfold SimulationStatistics.update
  by_cases hd : m.delivered <;> simp [hd]

lemma update_start (s : SimulationStatistics) (m : ServicedMessage) :
    (s.update m).start = s.start := by
  unfold SimulationStatistics.update
  by_cases hd : m.delivered <;> simp [hd]

lemma update_total (s : SimulationStatistics) (m : ServicedMessage) :
    (s.update m).total_messages = s.total_messages := by
  unfold SimulationStatistics.update
  by_cases hd : m.delivered <;> simp [hd]

lemma update_avg (s : SimulationStatistics) (m : ServicedMessage) :
    (s.update m).average_seconds_per_message
      = s.average_seconds_per_message
          * ((s.messages_processed : ℚ) / ((s.messages_processed : ℚ) + 1))
        + m.service_time_seconds / ((s.messages_processed : ℚ) + 1) := by
  unfold SimulationStatistics.update SimulationStatistics.messages_processed
  by_cases hd : m.delivered <;> simp [hd] <;> ring_nf

lemma update_avg_mul (s : SimulationStatistics) (m : ServicedMessage) :
    (s.update m).average_seconds_per_message * (((s.update m).messages_processed : ℚ))
      = s.average_seconds_per_message * (s.messages_processed : ℚ)
        + m.service_time_seconds := by
  rw [update_avg, update_processed]
  have h : ((s.messages_processed : ℚ) + 1) ≠ 0 := by positivity
  push_cast
  field_simp

lemma foldStats_processed (l : List ServicedMessage) :
    ∀ s : SimulationStatistics,
      (foldStats s l).messages_processed = s.messages_processed + l.length := by
  induction l with
  | nil => intro s; simp [foldStats]
  | cons m rest ih =>
    intro s
    simp only [foldStats, List.foldl_cons, List.length_cons]
    have := ih (s.update m)
    simp only [foldStats] at this
    rw [this, update_processed]
    omega

lemma foldStats_sent (l : List ServicedMessage) :
    ∀ s : SimulationStatistics,
      (foldStats s l).messages_sent
        = s.messages_sent + l.countP (fun m => m.delivered) := by
  induction l with
  | nil => intro s; simp [foldStats]
  | cons m rest ih =>
    intro s
    simp only [foldStats, List.foldl_cons, List.countP_cons]
    have := ih (s.update m)
    simp only [foldStats] at this
    rw [this, update_sent]
    by_cases hd : m.delivered <;> simp [hd] ; omega

lemma foldStats_failed (l : List ServicedMessage) :
    ∀ s : SimulationStatistics,
      (foldStats s l).messages_failed
        = s.messages_failed + l.countP (fun m => !m.delivered) := by
  induction l with
  | nil => intro s; simp [foldStats]
  | cons m rest ih =>
    intro s
    simp only [foldStats, List.foldl_cons, List.countP_cons]
    have := ih (s.update m)
    simp only [foldStats] at this
    rw [this, update_failed]
    by_cases hd : m.delivered <;> simp [hd] ; omega

lemma foldStats_avg_mul (l : List ServicedMessage) :
    ∀ s : SimulationStatistics,
      (foldStats s l).average_seconds_per_message * ((foldStats s l).messages_processed : ℚ)
        = s.average_seconds_per_message * (s.messages_processed : ℚ)
          + (l.map ServicedMessage.service_time_seconds).sum := by
  induction l with
  | nil => intro s; simp [foldStats]
  | cons m rest ih =>
    intro s
    simp only [foldStats, List.foldl_cons, List.map_cons, List.sum_cons]
    have := ih (s.update m)
    simp only [foldStats] at this
    rw [this, update_avg_mul]
    ring

lemma foldStats_new_avg (now total : ℕ) (l : List ServicedMessage) :
    (foldStats (SimulationStatistics.new now total) l).average_seconds_per_message
      = (l.map ServicedMessage.service_time_seconds).sum / (l.length : ℚ) := by
  have h1 := foldStats_avg_mul l (SimulationStatistics.new now total)
  have h2 := foldStats_processed l (SimulationStatistics.new now total)
  rcases Nat.eq_zero_or_pos l.length with h0 | h0
  · have hnil : l = [] := List.length_eq_zero.mp h0
    subst hnil
    simp [foldStats, SimulationStatistics.new]
  · simp only [SimulationStatistics.new, SimulationStatistics.messages_processed,
      Nat.zero_add, Nat.cast_zero, mul_zero, zero_add, zero_mul] at h1 h2
    rw [h2] at h1
    have hne : ((l.length : ℚ)) ≠ 0 := by
      have : (0 : ℚ) < (l.length : ℚ) := by exact_mod_cast h0
      linarith
    rw [eq_div_iff hne]
    simpa using h1

lemma applyEvent_processed (s : SimulationStatistics) (e : Option ServicedMessage) :
    (s.applyEvent e).messages_processed
      = s.messages_processed + (if e.isSome then 1 else 0) := by
  cases e with
  | none => simp [SimulationStatistics.applyEvent]
  | some m => simp [SimulationStatistics.applyEvent, update_processed]

lemma someCount_cons (e : Option ServicedMessage) (rest : List (Option ServicedMessage)) :
    someCount (e :: rest) = (if e.isSome then 1 else 0) + someCount rest := by
  cases e <;> simp [someCount] ; omega

lemma runStates_eq_cons (total : ℕ) (s : SimulationStatistics)
    (events : List (Option ServicedMessage)) :
    ∃ t, runStates total s events = s :: t := by
  cases events with
  | nil => exact ⟨[], rfl⟩
  | cons e rest =>
    by_cases hstop : (s.applyEvent e).messages_processed = total
    · exact ⟨[s.applyEvent e], by simp [runStates, hstop]⟩
    · exact ⟨runStates total (s.applyEvent e) rest, by simp [runStates, hstop]⟩

lemma runStates_le (total : ℕ) :
    ∀ (events : List (Option ServicedMessage)) (s : SimulationStatistics),
      s.messages_processed + someCount events ≤ total →
      ∀ x ∈ runStates total s events, x.messages_processed ≤ total := by
  intro events
  induction events with
  | nil =>
    intro s h x hx
    simp [runStates] at hx
    subst hx
    simpa [someCount] using h
  | cons e rest ih =>
    intro s h x hx
    have hsc := someCount_cons e rest
    have hae := applyEvent_processed s e
    by_cases hstop : (s.applyEvent e).messages_processed = total
    · simp only [runStates, hstop, if_pos, List.mem_cons, List.mem_singleton,
        List.not_mem_nil, or_false] at hx
      rcases hx with rfl | rfl
      · omega
      · omega
    · simp only [runStates, hstop, if_neg, not_false_iff, List.mem_cons] at hx
      rcases hx with rfl | hx
      · omega
      · exact ih (s.applyEvent e) (by omega) x hx

lemma runLoop_exit (total : ℕ) :
    ∀ (events : List (Option ServicedMessage)) (s : SimulationStatistics),
      (runLoop total s events).2 = false →
      (runLoop total s events).1.messages_processed = total := by
  intro events
  induction events with
  | nil => intro s h; simp [runLoop] at h
  | cons e rest ih =>
    intro s h
    by_cases hstop : (s.applyEvent e).messages_processed = total
    · simp [runLoop, hstop]
    · simp only [runLoop, hstop, if_neg, not_false_iff] at h ⊢
      exact ih _ h

lemma runStates_tail_ne (total : ℕ) :
    ∀ (events : List (Option ServicedMessage)) (s : SimulationStatistics),
      (runLoop total s events).2 = true →
      ∀ x ∈ (runStates total s events).tail, x.messages_processed ≠ total := by
  intro events
  induction events with
  | nil => intro s _ x hx; simp [runStates] at hx
  | cons e rest ih =>
    intro s h x hx
    by_cases hstop : (s.applyEvent e).messages_processed = total
    · simp [runLoop, hstop] at h
    · simp only [runStates, hstop, if_neg, not_false_iff, List.tail_cons] at hx
      simp only [runLoop, hstop, if_neg, not_false_iff] at h
      obtain ⟨t, ht⟩ := runStates_eq_cons total (s.applyEvent e) rest
      rw [ht] at hx
      rcases List.mem_cons.mp hx with rfl | hx2
      · exact hstop
      · have := ih (s.applyEvent e) h x
        rw [ht] at this
        exact this hx2

lemma runStates_dropLast_ne (total : ℕ) :
    ∀ (events : List (Option ServicedMessage)) (s : SimulationStatistics),
      (runLoop total s events).2 = false →
      ∀ x ∈ ((runStates total s events).tail).dropLast, x.messages_processed ≠ total := by
  intro events
  induction events with
  | nil => intro s h; simp [runLoop] at h
  | cons e rest ih =>
    intro s h x hx
    by_cases hstop : (s.applyEvent e).messages_processed = total
    · simp [runStates, hstop] at hx
    · simp only [runStates, hstop, if_neg, not_false_iff, List.tail_cons] at hx
      simp only [runLoop, hstop, if_neg, not_false_iff] at h
      obtain ⟨t, ht⟩ := runStates_eq_cons total (s.applyEvent e) rest
      rw [ht] at hx
      cases t with
      | nil => simp at hx
      | cons b ts =>
        rw [List.dropLast_cons₂] at hx
        rcases List.mem_cons.mp hx with rfl | hx2
        · exact hstop
        · have := ih (s.applyEvent e) h x
          rw [ht, List.tail_cons] at this
          exact this hx2

lemma runStates_chain (total : ℕ) :
    ∀ (events : List (Option ServicedMessage)) (s : SimulationStatistics),
      List.Chain' (fun a b => b.messages_processed = a.messages_processed
        ∨ b.messages_processed = a.messages_processed + 1) (runStates total s events) := by
  intro events
  induction events with
  | nil => intro s; simp [runStates]
  | cons e rest ih =>
    intro s
    have hstep : (s.applyEvent e).messages_processed = s.messages_processed
        ∨ (s.applyEvent e).messages_processed = s.messages_processed + 1 := by
      have := applyEvent_processed s e
      by_cases he : e.isSome <;> simp [he] at this <;> omega
    by_cases hstop : (s.applyEvent e).messages_processed = total
    · have hrs : runStates total s (e :: rest) = [s, s.applyEvent e] := by
        simp [runStates, hstop]
      rw [hrs, List.chain'_cons]
      exact ⟨hstep, List.chain'_singleton _⟩
    · simp only [runStates, hstop, if_neg, not_false_iff]
      obtain ⟨t, ht⟩ := runStates_eq_cons total (s.applyEvent e) rest
      rw [ht]
      rw [List.chain'_cons]
      constructor
      · exact hstep
      · have := ih (s.applyEvent e)
        rw [ht] at this
        exact this

lemma service_time_bounds (sender : SMSSender)
    (hm : 0 ≤ sender.mean_send_time_seconds) (hs : 0 ≤ sender.sdev_send_time_seconds)
    (sample : ℚ) :
    max (sender.mean_send_time_seconds - 3 * sender.sdev_send_time_seconds) 0
        ≤ sender.service_time sample
      ∧ sender.service_time sample
        ≤ sender.mean_send_time_seconds + 3 * sender.sdev_send_time_seconds := by
  have hLU : max (sender.mean_send_time_seconds - 3 * sender.sdev_send_time_seconds) 0
      ≤ sender.mean_send_time_seconds + 3 * sender.sdev_send_time_seconds :=
    max_le (by linarith) (by linarith)
  simp only [SMSSender.service_time]
  split_ifs with h1 h2 h3 <;> constructor <;>
    simp_all [le_max_iff, max_le_iff]

lemma choices_length (population : List Char) (k : ℕ) (draw : ℕ → ℕ) :
    (choices population k draw).length = k := by
  simp [choices]

lemma choices_mem (population : List Char) (hp : population ≠ []) (k : ℕ) (draw : ℕ → ℕ) :
    ∀ c ∈ choices population k draw, c ∈ population := by
  intro c hc
  simp only [choices, List.mem_map, List.mem_range] at hc
  obtain ⟨i, _, rfl⟩ := hc
  have hlen : 0 < population.length := List.length_pos.mpr hp
  have hlt : draw i % population.length < population.length := Nat.mod_lt _ hlen
  rw [List.getD_eq_getElem _ _ hlt]
  exact population.getElem_mem hlt

/-- C1: throughout the aggregation loop of `Simulator.run` the statistics
satisfy `messages_sent + messages_failed ≤ total_messages`, and when the loop
completes (the `running` flag becomes false) the processed count equals the
configured total exactly; the loop exits at the first check where the
processed count equals the total (every earlier post-iteration state has a
strictly different count, and if the loop never exits no state reaches the
total), each processed event changing the count by at most one and each
`update` call by exactly one. The hypothesis `someCount events ≤ total` holds
in every real run because the producer generates exactly `total` messages and
each is serviced at most once. -/
theorem c1_run_loop_invariant_and_completion (now total : ℕ)
    (events : List (Option ServicedMessage)) (h : someCount events ≤ total) :
    (∀ x ∈ runStates total (SimulationStatistics.new now total) events,
        x.messages_processed ≤ total)
    ∧ ((runLoop total (SimulationStatistics.new now total) events).2 = false →
        (runLoop total (SimulationStatistics.new now total) events).1.messages_processed
          = total)
    ∧ ((runLoop total (SimulationStatistics.new now total) events).2 = true →
        ∀ x ∈ (runStates total (SimulationStatistics.new now total) events).tail,
          x.messages_processed ≠ total)
    ∧ ((runLoop total (SimulationStatistics.new now total) events).2 = false →
        ∀ x ∈ ((runStates total (SimulationStatistics.new now total) events).tail).dropLast,
          x.messages_processed ≠ total)
    ∧ List.Chain' (fun a b => b.messages_processed = a.messages_processed
        ∨ b.messages_processed = a.messages_processed + 1)
        (runStates total (SimulationStatistics.new now total) events)
    ∧ (∀ (s : SimulationStatistics) (m : ServicedMessage),
        (s.update m).messages_processed = s.messages_processed + 1) := by
  refine ⟨?_, runLoop_exit total events _, runStates_tail_ne total events _,
    runStates_dropLast_ne total events _, runStates_chain total events _, update_processed⟩
  apply runStates_le total events
  simpa [SimulationStatistics.new, SimulationStatistics.messages_processed] using h

/-- Witness for C1 at a concrete input: two results and one timeout against a
total of 2; the loop exits with the processed count equal to 2. -/
theorem c1_witness :
    someCount demoEvents ≤ 2
    ∧ ((runLoop 2 (SimulationStatistics.new 0 2) demoEvents).2 = false →
        (runLoop 2 (SimulationStatistics.new 0 2) demoEvents).1.messages_processed = 2)
    ∧ (∀ x ∈ runStates 2 (SimulationStatistics.new 0 2) demoEvents,
        x.messages_processed ≤ 2) :=
  ⟨by decide,
   (c1_run_loop_invariant_and_completion 0 2 demoEvents (by decide)).2.1,
   (c1_run_loop_invariant_and_completion 0 2 demoEvents (by decide)).1⟩

/-- C2: for every sender with non-negative mean and sdev, every value returned
by `_service_time` — and hence the `service_time_seconds` recorded by
`process_message` — lies in `[max 0 (mean - 3 sdev), mean + 3 sdev]`, for
every possible gauss sample. -/
theorem c2_service_time_in_interval (sender : SMSSender)
    (hm : 0 ≤ sender.mean_send_time_seconds) (hs : 0 ≤ sender.sdev_send_time_seconds)
    (gauss_sample : ℚ) :
    sender.service_time gauss_sample ∈
      Set.Icc (max 0 (sender.mean_send_time_seconds - 3 * sender.sdev_send_time_seconds))
        (sender.mean_send_time_seconds + 3 * sender.sdev_send_time_seconds)
    ∧ ∀ (u : ℚ) (message : SMSMessage),
        (sender.process_message gauss_sample u message).service_time_seconds ∈
          Set.Icc (max 0 (sender.mean_send_time_seconds - 3 * sender.sdev_send_time_seconds))
            (sender.mean_send_time_seconds + 3 * sender.sdev_send_time_seconds) := by
  have h := service_time_bounds sender hm hs gauss_sample
  have hmem : sender.service_time gauss_sample ∈
      Set.Icc (max 0 (sender.mean_send_time_seconds - 3 * sender.sdev_send_time_seconds))
        (sender.mean_send_time_seconds + 3 * sender.sdev_send_time_seconds) := by
    constructor
    · rw [max_comm]
      exact h.1
    · exact h.2
  exact ⟨hmem, fun u message => hmem⟩

/-- Witness for C2 at a concrete input: the demo sender (mean 1, sdev 1/4)
with a gauss sample of 100 (clamped to the upper bound). -/
theorem c2_witness :
    (0 ≤ demoSender.mean_send_time_seconds ∧ 0 ≤ demoSender.sdev_send_time_seconds)
    ∧ (demoSender.service_time 100 ∈
        Set.Icc (max 0 (demoSender.mean_send_time_seconds
            - 3 * demoSender.sdev_send_time_seconds))
          (demoSender.mean_send_time_seconds + 3 * demoSender.sdev_send_time_seconds)
      ∧ ∀ (u : ℚ) (message : SMSMessage),
          (demoSender.process_message 100 u message).service_time_seconds ∈
            Set.Icc (max 0 (demoSender.mean_send_time_seconds
                - 3 * demoSender.sdev_send_time_seconds))
              (demoSender.mean_send_time_seconds + 3 * demoSender.sdev_send_time_seconds)) :=
  ⟨⟨by simp [demoSender], by simp [demoSender]⟩,
   c2_service_time_in_interval demoSender (by simp [demoSender]) (by simp [demoSender]) 100⟩

/-- C3: folding `SimulationStatistics.update` over any finite sequence of
serviced messages from the initial state of `SimulationStatistics.new` yields
an `average_seconds_per_message` equal (in exact rational arithmetic) to the
arithmetic mean of all `service_time_seconds` values, failed messages
included. -/
theorem c3_incremental_mean_exact (now total : ℕ) (l : List ServicedMessage) :
    (foldStats (SimulationStatistics.new now total) l).average_seconds_per_message
      = (l.map ServicedMessage.service_time_seconds).sum / (l.length : ℚ) :=
  foldStats_new_avg now total l

/-- C4 (code bug): with `totalMessages = 0` the aggregation loop of
`Simulator.run` does exit immediately with `messages_sent = 0` and
`messages_failed = 0` (first poll times out, the completion check `0 == 0`
fires), but `SimulationStatistics.render` divides by `total_messages`, so the
progress monitor's rendering raises `ZeroDivisionError` (modelled as `none`)
instead of succeeding, and `run` propagates that exception when awaiting the
monitor task. -/
theorem c4_zero_total_render_division_by_zero :
    (runLoop 0 (SimulationStatistics.new 0 0) [none]).2 = false
    ∧ (runLoop 0 (SimulationStatistics.new 0 0) [none]).1.messages_sent = 0
    ∧ (runLoop 0 (SimulationStatistics.new 0 0) [none]).1.messages_failed = 0
    ∧ (runLoop 0 (SimulationStatistics.new 0 0) [none]).1.render = none
    ∧ (SimulationStatistics.new 0 0).render = none := by
  refine ⟨rfl, rfl, rfl, ?_, ?_⟩ <;>
    simp [SimulationStatistics.render, SimulationStatistics.new, runLoop,
      SimulationStatistics.applyEvent, SimulationStatistics.messages_processed, pyDiv]

/-- C5 counterexample: with the externally-valid configuration mean 0, sdev 1
(both non-negative) and a negative gauss sample, `process_message` records a
`service_time_seconds` of exactly 0, so strict positivity fails. -/
theorem c5_counterexample :
    0 ≤ zeroMeanSender.mean_send_time_seconds
    ∧ 0 ≤ zeroMeanSender.sdev_send_time_seconds
    ∧ (zeroMeanSender.process_message (-1) (1/2) demoMessage).service_time_seconds = 0
    ∧ ¬ (0 < (zeroMeanSender.process_message (-1) (1/2) demoMessage).service_time_seconds) := by
  refine ⟨by norm_num [zeroMeanSender], by norm_num [zeroMeanSender], ?_, ?_⟩ <;>
    norm_num [zeroMeanSender, SMSSender.process_message, SMSSender.service_time]

/-- C5 (amended): every `ServicedMessage` produced by `process_message` under
an externally validated config (mean ≥ 0, sdev ≥ 0) has a non-negative
`service_time_seconds`; it is 0 exactly when the clamp floor
`max 0 (mean - 3 sdev)` is hit at 0, so strict positivity can fail. -/
theorem c5_service_time_nonneg (sender : SMSSender)
    (hm : 0 ≤ sender.mean_send_time_seconds) (hs : 0 ≤ sender.sdev_send_time_seconds)
    (gauss_sample u : ℚ) (message : SMSMessage) :
    0 ≤ (sender.process_message gauss_sample u message).service_time_seconds := by
  have h := (service_time_bounds sender hm hs gauss_sample).1
  have h0 : (0:ℚ) ≤ max (sender.mean_send_time_seconds
      - 3 * sender.sdev_send_time_seconds) 0 := le_max_right _ _
  exact le_trans h0 h

/-- Witness for the amended C5 at a concrete input. -/
theorem c5_witness :
    (0 ≤ zeroMeanSender.mean_send_time_seconds ∧ 0 ≤ zeroMeanSender.sdev_send_time_seconds)
    ∧ 0 ≤ (zeroMeanSender.process_message (-1) (1/2) demoMessage).service_time_seconds :=
  ⟨⟨by norm_num [zeroMeanSender], by norm_num [zeroMeanSender]⟩,
   c5_service_time_nonneg zeroMeanSender (by norm_num [zeroMeanSender])
     (by norm_num [zeroMeanSender]) (-1) (1/2) demoMessage⟩

/-- C6: for every uniform draw `u ∈ [0,1)`, a failure rate of 0 always yields
`delivered = true`, a failure rate of 1 always yields `delivered = false`, and
in general `delivered = false` exactly when `u < failure_rate`. -/
theorem c6_failure_rate_delivery (sender : SMSSender) (gauss_sample u : ℚ)
    (message : SMSMessage) (h0 : 0 ≤ u) (h1 : u < 1) :
    (sender.failure_rate = 0 →
        (sender.process_message gauss_sample u message).delivered = true)
    ∧ (sender.failure_rate = 1 →
        (sender.process_message gauss_sample u message).delivered = false)
    ∧ ((sender.process_message gauss_sample u message).delivered = false
        ↔ u < sender.failure_rate) := by
  simp only [SMSSender.process_message]
  refine ⟨?_, ?_, ?_⟩
  · intro hr
    rw [hr]
    simp only [if_neg (not_lt.mpr h0)]
  · intro hr
    rw [hr]
    simp only [if_pos h1]
  · split_ifs with h <;> simp [h]

/-- Witness for C6 at a concrete input: the demo sender (failure rate 0) with
the uniform draw 1/2 delivers the demo message. -/
theorem c6_witness :
    ((0:ℚ) ≤ 1/2 ∧ (1/2 : ℚ) < 1)
    ∧ ((demoSender.failure_rate = 0 →
          (demoSender.process_message 1 (1/2) demoMessage).delivered = true)
      ∧ (demoSender.failure_rate = 1 →
          (demoSender.process_message 1 (1/2) demoMessage).delivered = false)
      ∧ ((demoSender.process_message 1 (1/2) demoMessage).delivered = false
          ↔ (1/2 : ℚ) < demoSender.failure_rate)) :=
  ⟨⟨by norm_num, by norm_num⟩,
   c6_failure_rate_delivery demoSender 1 (1/2) demoMessage (by norm_num) (by norm_num)⟩

/-- C7: for every possible outcome of the random draws, `random_message`
yields a phone number of exactly 10 decimal-digit characters and a body whose
length lies in `[5, 100]` and whose characters all come from the alphabet of
upper/lower letters, digits and space. -/
theorem c7_random_message_wellformed (phone_draw : ℕ → ℕ) (len_u : ℕ)
    (body_draw : ℕ → ℕ) :
    (SMSMessage.random_message phone_draw len_u body_draw).phone_number.length = 10
    ∧ (∀ c ∈ (SMSMessage.random_message phone_draw len_u body_draw).phone_number,
        c ∈ string_digits)
    ∧ 5 ≤ (SMSMessage.random_message phone_draw len_u body_draw).message_body.length
    ∧ (SMSMessage.random_message phone_draw len_u body_draw).message_body.length ≤ 100
    ∧ (∀ c ∈ (SMSMessage.random_message phone_draw len_u body_draw).message_body,
        c ∈ CHARSET) := by
  have hmod : len_u % 96 < 96 := Nat.mod_lt _ (by norm_num)
  refine ⟨?_, ?_, ?_, ?_, ?_⟩
  · simp [SMSMessage.random_message, choices_length]
  · intro c hc
    exact choices_mem string_digits (by decide) 10 phone_draw c hc
  · simp only [SMSMessage.random_message, choices_length, randint]
    omega
  · simp only [SMSMessage.random_message, choices_length, randint]
    omega
  · intro c hc
    exact choices_mem CHARSET (by decide) (randint 5 100 len_u) body_draw c hc

/-- C8: aggregation is order-independent: folding `update` over any
permutation of a sequence of serviced messages from the same initial state
yields the same sent count, failed count and (in exact arithmetic) the same
incremental average. -/
theorem c8_aggregation_order_independent (now total : ℕ) (l l2 : List ServicedMessage)
    (h : l.Perm l2) :
    (foldStats (SimulationStatistics.new now total) l).messages_sent
        = (foldStats (SimulationStatistics.new now total) l2).messages_sent
    ∧ (foldStats (SimulationStatistics.new now total) l).messages_failed
        = (foldStats (SimulationStatistics.new now total) l2).messages_failed
    ∧ (foldStats (SimulationStatistics.new now total) l).average_seconds_per_message
        = (foldStats (SimulationStatistics.new now total) l2).average_seconds_per_message := by
  refine ⟨?_, ?_, ?_⟩
  · rw [foldStats_sent, foldStats_sent, h.countP_eq]
  · rw [foldStats_failed, foldStats_failed, h.countP_eq]
  · rw [foldStats_new_avg, foldStats_new_avg,
      (h.map ServicedMessage.service_time_seconds).sum_eq, h.length_eq]

/-- Witness for C8 at a concrete input: the two demo serviced messages in both
orders. -/
theorem c8_witness :
    (foldStats (SimulationStatistics.new 0 3) [demoServicedA, demoServicedB]).messages_sent
        = (foldStats (SimulationStatistics.new 0 3) [demoServicedB, demoServicedA]).messages_sent
    ∧ (foldStats (SimulationStatistics.new 0 3) [demoServicedA, demoServicedB]).messages_failed
        = (foldStats (SimulationStatistics.new 0 3)
            [demoServicedB, demoServicedA]).messages_failed
    ∧ (foldStats (SimulationStatistics.new 0 3)
          [demoServicedA, demoServicedB]).average_seconds_per_message
        = (foldStats (SimulationStatistics.new 0 3)
            [demoServicedB, demoServicedA]).average_seconds_per_message :=
  c8_aggregation_order_independent 0 3 [demoServicedA, demoServicedB]
    [demoServicedB, demoServicedA] (List.Perm.swap demoServicedB demoServicedA [])

/-- C9 counterexample: with zero senders — a configuration
`SimulationConfig.validate` accepts — `from_config` passes `maxsize = 0` to
both queues, and a `multiprocessing.Queue` with `maxsize ≤ 0` is unbounded,
so buffering is not bounded for every `N ≥ 0`. -/
theorem c9_counterexample :
    (Simulator.from_config 0 zeroSenderConfig).producer_queue.maxsize
        = 2 * zeroSenderConfig.senders.length
    ∧ (Simulator.from_config 0 zeroSenderConfig).producer_queue.is_bounded = false
    ∧ (Simulator.from_config 0 zeroSenderConfig).result_queue.is_bounded = false := by
  refine ⟨rfl, ?_, ?_⟩ <;> decide

/-- C9 (amended): `from_config` passes capacity `2 × N` for both the inbound
and the outbound queue, and for every `N ≥ 1` both queues are genuinely
bounded with that capacity; with `N = 0` the `maxsize = 0` queues are
unbounded under Python semantics. -/
theorem c9_queue_capacity (now : ℕ) (config : SimulationConfig)
    (h : 1 ≤ config.senders.length) :
    (Simulator.from_config now config).producer_queue.maxsize = 2 * config.senders.length
    ∧ (Simulator.from_config now config).result_queue.maxsize = 2 * config.senders.length
    ∧ (Simulator.from_config now config).producer_queue.is_bounded = true
    ∧ (Simulator.from_config now config).result_queue.is_bounded = true := by
  refine ⟨rfl, rfl, ?_, ?_⟩ <;>
    simp [Simulator.from_config, MPQueue.is_bounded] <;> omega

/-- Witness for the amended C9 at a concrete one-sender configuration. -/
theorem c9_witness :
    1 ≤ oneSenderConfig.senders.length
    ∧ ((Simulator.from_config 0 oneSenderConfig).producer_queue.maxsize
          = 2 * oneSenderConfig.senders.length
      ∧ (Simulator.from_config 0 oneSenderConfig).result_queue.maxsize
          = 2 * oneSenderConfig.senders.length
      ∧ (Simulator.from_config 0 oneSenderConfig).producer_queue.is_bounded = true
      ∧ (Simulator.from_config 0 oneSenderConfig).result_queue.is_bounded = true) :=
  ⟨by decide, c9_queue_capacity 0 oneSenderConfig (by decide)⟩

/-- C10: `update` increments exactly one of `messages_sent` or
`messages_failed` by exactly 1 (`messages_sent` iff the message was
delivered), leaves `start` and `total_messages` unchanged, and therefore
increases `messages_processed` by exactly 1. -/
theorem c10_update_frame (s : SimulationStatistics) (m : ServicedMessage)
    (_h : 0 < s.messages_sent + s.messages_failed + 1) :
    (m.delivered = true →
        (s.update m).messages_sent = s.messages_sent + 1
        ∧ (s.update m).messages_failed = s.messages_failed)
    ∧ (m.delivered = false →
        (s.update m).messages_failed = s.messages_failed + 1
        ∧ (s.update m).messages_sent = s.messages_sent)
    ∧ (s.update m).start = s.start
    ∧ (s.update m).total_messages = s.total_messages
    ∧ (s.update m).messages_processed = s.messages_processed + 1 := by
  refine ⟨?_, ?_, update_start s m, update_total s m, update_processed s m⟩
  · intro hd
    rw [update_sent, update_failed]
    simp [hd]
  · intro hd
    rw [update_sent, update_failed]
    simp [hd]

/-- Witness for C10 at a concrete input: the fresh statistics for 3 messages
updated with the delivered demo message. -/
theorem c10_witness :
    0 < (SimulationStatistics.new 0 3).messages_sent
        + (SimulationStatistics.new 0 3).messages_failed + 1
    ∧ ((demoServicedA.delivered = true →
          ((SimulationStatistics.new 0 3).update demoServicedA).messages_sent
              = (SimulationStatistics.new 0 3).messages_sent + 1
          ∧ ((SimulationStatistics.new 0 3).update demoServicedA).messages_failed
              = (SimulationStatistics.new 0 3).messages_failed)
      ∧ (demoServicedA.delivered = false →
          ((SimulationStatistics.new 0 3).update demoServicedA).messages_failed
              = (SimulationStatistics.new 0 3).messages_failed + 1
          ∧ ((SimulationStatistics.new 0 3).update demoServicedA).messages_sent
              = (SimulationStatistics.new 0 3).messages_sent)
      ∧ ((SimulationStatistics.new 0 3).update demoServicedA).start
          = (SimulationStatistics.new 0 3).start
      ∧ ((SimulationStatistics.new 0 3).update demoServicedA).total_messages
          = (SimulationStatistics.new 0 3).total_messages
      ∧ ((SimulationStatistics.new 0 3).update demoServicedA).messages_processed
          = (SimulationStatistics.new 0 3).messages_processed + 1) :=
  ⟨by decide, c10_update_frame (SimulationStatistics.new 0 3) demoServicedA (by decide)⟩
